import Mathlib

/-!
Verification of `easyst/io/print.py`: a context manager `custom_print` that
temporarily replaces the process-wide `builtins.print` hook, and a renderer
`st_print` that dispatches each positional argument to a Streamlit call by
runtime type.
-/

/-- Values the renderer can receive, shallowly embedding the Python runtime
types that `st_print` distinguishes with `isinstance`: `str`, `pd.DataFrame`,
`dict`, `list`, plus representatives of every other type (`int`, `None`, and
an opaque `other`). -/
inductive PyVal where
  | str (s : String)
  | dataFrame (rows : List (List Int)) (cols : List String)
  | dict (entries : List (String × PyVal))
  | list (items : List PyVal)
  | int (z : Int)
  | none
  | other (tag : String)

/-- Embeds `isinstance(arg, str)`. -/
def PyVal.isStr : PyVal → Bool
  | .str _ => true
  | _ => false

/-- Embeds `isinstance(arg, pd.DataFrame)`. -/
def PyVal.isDataFrame : PyVal → Bool
  | .dataFrame _ _ => true
  | _ => false

/-- Embeds `isinstance(arg, (dict, list))`. -/
def PyVal.isDictOrList : PyVal → Bool
  | .dict _ => true
  | .list _ => true
  | _ => false

/-- The four branches of the `if`/`elif` chain in `st_print`
(source lines 36-43). Both the `text` and the `fallback` branch end in a call
to `st.write`; they are distinct branches of the source's control flow. -/
inductive Branch where
  | text
  | table
  | structured
  | fallback
  deriving DecidableEq

/-- A call against the Streamlit host: `st.write`, `st.dataframe` or
`st.json`, carrying the exact value passed. -/
inductive StCall where
  | write (v : PyVal)
  | dataframe (v : PyVal)
  | json (v : PyVal)

/-- One iteration of the loop body of `st_print` (source lines 35-43): the
`if`/`elif`/`else` chain on `arg`, recorded as the branch taken together with
the Streamlit call it makes. -/
def st_print_arg (arg : PyVal) : Branch × StCall :=
  if arg.isStr then (.text, .write arg)
  else if arg.isDataFrame then (.table, .dataframe arg)
  else if arg.isDictOrList then (.structured, .json arg)
  else (.fallback, .write arg)

/-- Embeds `st_print(*args, **kwargs)`: iterates over the positional
arguments in order and dispatches each; `kwargs` is accepted but never read.
The result is the ordered trace of render calls. -/
def st_print (args : List PyVal) (kwargs : List (String × PyVal)) :
    List (Branch × StCall) :=
  args.map st_print_arg

/-- A value the process-wide `builtins.print` hook can hold: the built-in
`print`, a `new_print` wrapper closed over a redirect function (identified by
a natural number), or any other function assigned directly. -/
inductive Hook where
  | builtinPrint
  | newPrint (f : Nat)
  | other (n : Nat)
  deriving DecidableEq

/-- How a block of Python code exits: normally, or by raising an exception
(identified by a natural number). -/
inductive Outcome where
  | normal
  | raised (e : Nat)
  deriving DecidableEq

/-- The observable behaviour of running a block: the ordered list of
assignments to `builtins.print` it performs (each event is the hook value
assigned), and how it exits. -/
structure Run where
  events : List Hook
  outcome : Outcome

/-- Embeds `custom_print(redirect_func)` used as a context manager around a
block (source lines 20-29). A body is any block of code, modelled as a
function from the hook value installed at entry to the run it performs.
Following the source: `original_print = builtins.print`; then
`builtins.print = new_print` (the entry assignment event); then the body runs
under `try`; the `finally` clause assigns `builtins.print = original_print`
(the final event) on every exit path, and the body's outcome propagates
unchanged. -/
def custom_print (redirect_func : Nat) (body : Hook → Run) (h₀ : Hook) :
    Run :=
  let original_print := h₀
  let br := body (Hook.newPrint redirect_func)
  { events := Hook.newPrint redirect_func :: br.events ++ [original_print]
    outcome := br.outcome }

/-- The hook value that results from replaying a list of assignment events on
top of an initial hook: the last assignment wins. -/
def applyEvents (h : Hook) (evs : List Hook) : Hook :=
  evs.foldl (fun _ e => e) h

/-- A redirect function handed to `custom_print`: its identity and its return
value as a function of the arguments it receives. -/
structure RFunc where
  id : Nat
  ret : List PyVal → List (String × PyVal) → PyVal

/-- A record of one call to a redirect function: which function, and the
exact positional and keyword arguments it received. -/
structure Invocation where
  func : Nat
  args : List PyVal
  kwargs : List (String × PyVal)

/-- Embeds the inner `new_print(*args, **kwargs)` wrapper (source lines
22-23): it calls `redirect_func(*args, **kwargs)` as a statement, discarding
the result, and falls off the end, so it returns `None`. The result is the
list of redirect-function calls made together with the wrapper's return
value. -/
def new_print (f : RFunc) (args : List PyVal)
    (kwargs : List (String × PyVal)) : List Invocation × PyVal :=
  let _r := f.ret args kwargs
  ([⟨f.id, args, kwargs⟩], PyVal.none)

theorem applyEvents_concat (h x : Hook) (l : List Hook) :
    applyEvents h (l ++ [x]) = x := by
  simp [applyEvents, List.foldl_append]

/-- C1: for every block entered via `custom_print`, the process-wide print
hook after the block exits equals the hook active immediately before entry,
and the trace after the entry assignment and the body's assignments consists
of exactly one restoration event, assigning that pre-entry hook — whatever
the body does and however it exits. -/
theorem custom_print_restores_original (f : Nat) (body : Hook → Run)
    (h₀ : Hook) :
    applyEvents h₀ (custom_print f body h₀).events = h₀ ∧
    (custom_print f body h₀).events.drop
      ((body (Hook.newPrint f)).events.length + 1) = [h₀] := by
  constructor
  · have : (custom_print f body h₀).events =
        (Hook.newPrint f :: (body (Hook.newPrint f)).events) ++ [h₀] := by
      simp [custom_print]
    rw [this, applyEvents_concat]
  · simp [custom_print, List.drop_append_of_le_length]

/-- C2: every exception raised inside the scoped block of `custom_print`
propagates unchanged to the caller, and at that moment the process-wide print
hook has already been restored to its pre-entry value. -/
theorem custom_print_propagates_exception (f : Nat) (body : Hook → Run)
    (h₀ : Hook) (e : Nat)
    (hraise : (body (Hook.newPrint f)).outcome = Outcome.raised e) :
    (custom_print f body h₀).outcome = Outcome.raised e ∧
    applyEvents h₀ (custom_print f body h₀).events = h₀ := by
  refine ⟨by simpa [custom_print] using hraise, ?_⟩
  have : (custom_print f body h₀).events =
      (Hook.newPrint f :: (body (Hook.newPrint f)).events) ++ [h₀] := by
    simp [custom_print]
  rw [this, applyEvents_concat]

theorem custom_print_propagates_exception_witness :
    (custom_print 0 (fun _ => ⟨[], Outcome.raised 7⟩)
        Hook.builtinPrint).outcome = Outcome.raised 7 ∧
    applyEvents Hook.builtinPrint
      (custom_print 0 (fun _ => ⟨[], Outcome.raised 7⟩)
        Hook.builtinPrint).events = Hook.builtinPrint :=
  custom_print_propagates_exception 0 (fun _ => ⟨[], Outcome.raised 7⟩)
    Hook.builtinPrint 7 rfl

/-- C3: with two nested scopes (outer redirect `f`, inner redirect `g`),
exiting the inner scope leaves the hook equal to the wrapper the outer scope
installed (`Hook.newPrint f`), which is not the pre-outer hook whenever the
two differ; exiting the outer scope then restores the pre-outer hook. -/
theorem custom_print_nesting (f g : Nat) (inner : Hook → Run) (h₀ : Hook)
    (hne : h₀ ≠ Hook.newPrint f) :
    applyEvents (Hook.newPrint f)
        (custom_print g inner (Hook.newPrint f)).events = Hook.newPrint f ∧
    applyEvents (Hook.newPrint f)
        (custom_print g inner (Hook.newPrint f)).events ≠ h₀ ∧
    applyEvents h₀
        (custom_print f (fun h => custom_print g inner h) h₀).events
      = h₀ := by
  have hinner : applyEvents (Hook.newPrint f)
      (custom_print g inner (Hook.newPrint f)).events = Hook.newPrint f := by
    have : (custom_print g inner (Hook.newPrint f)).events =
        (Hook.newPrint g :: (inner (Hook.newPrint g)).events)
          ++ [Hook.newPrint f] := by
      simp [custom_print]
    rw [this, applyEvents_concat]
  refine ⟨hinner, ?_, ?_⟩
  · rw [hinner]
    exact fun h => hne h.symm
  · have : (custom_print f (fun h => custom_print g inner h) h₀).events =
        (Hook.newPrint f ::
          (custom_print g inner (Hook.newPrint f)).events) ++ [h₀] := by
      simp [custom_print]
    rw [this, applyEvents_concat]

theorem custom_print_nesting_witness :
    Hook.builtinPrint ≠ Hook.newPrint 0 ∧
    (applyEvents (Hook.newPrint 0)
        (custom_print 1 (fun _ => ⟨[], Outcome.normal⟩)
          (Hook.newPrint 0)).events = Hook.newPrint 0 ∧
      applyEvents (Hook.newPrint 0)
        (custom_print 1 (fun _ => ⟨[], Outcome.normal⟩)
          (Hook.newPrint 0)).events ≠ Hook.builtinPrint ∧
      applyEvents Hook.builtinPrint
        (custom_print 0
          (fun h => custom_print 1 (fun _ => ⟨[], Outcome.normal⟩) h)
          Hook.builtinPrint).events = Hook.builtinPrint) :=
  ⟨by decide,
    custom_print_nesting 0 1 (fun _ => ⟨[], Outcome.normal⟩)
      Hook.builtinPrint (by decide)⟩

/-- C4: every positional argument of `st_print` that is a mapping or a list
is rendered through the structured-viewer branch, as an `st.json` call
carrying that exact value, at the same position in the call trace. -/
theorem st_print_dict_list_json (args : List PyVal)
    (kw : List (String × PyVal)) (i : Nat) (v : PyVal)
    (hv : args[i]? = some v) (hd : v.isDictOrList = true) :
    (st_print args kw)[i]? = some (Branch.structured, StCall.json v) := by
  have hmap : (st_print args kw)[i]? = args[i]?.map st_print_arg := by
    simp [st_print]
  rw [hmap, hv]
  cases v with
  | dict entries => simp [st_print_arg, PyVal.isStr, PyVal.isDataFrame,
      PyVal.isDictOrList]
  | list items => simp [st_print_arg, PyVal.isStr, PyVal.isDataFrame,
      PyVal.isDictOrList]
  | str s => simp [PyVal.isDictOrList] at hd
  | dataFrame rows cols => simp [PyVal.isDictOrList] at hd
  | int z => simp [PyVal.isDictOrList] at hd
  | none => simp [PyVal.isDictOrList] at hd
  | other tag => simp [PyVal.isDictOrList] at hd

theorem st_print_dict_list_json_witness :
    (st_print [PyVal.dict [("a", PyVal.int 1)]] [])[0]? =
      some (Branch.structured,
        StCall.json (PyVal.dict [("a", PyVal.int 1)])) :=
  st_print_dict_list_json [PyVal.dict [("a", PyVal.int 1)]] [] 0
    (PyVal.dict [("a", PyVal.int 1)]) rfl rfl

/-- C5: `st_print` produces exactly one render call per positional argument,
in argument order, and every string argument is rendered through the text
branch, as an `st.write` call carrying that exact value, at the same position
in the call trace. -/
theorem st_print_str_text_order (args : List PyVal)
    (kw : List (String × PyVal)) :
    (st_print args kw).length = args.length ∧
    ∀ i : Nat, ∀ v : PyVal, args[i]? = some v → v.isStr = true →
      (st_print args kw)[i]? = some (Branch.text, StCall.write v) := by
  refine ⟨by simp [st_print], ?_⟩
  intro i v hv hs
  have hmap : (st_print args kw)[i]? = args[i]?.map st_print_arg := by
    simp [st_print]
  rw [hmap, hv]
  cases v with
  | str s => simp [st_print_arg, PyVal.isStr]
  | dataFrame rows cols => simp [PyVal.isStr] at hs
  | dict entries => simp [PyVal.isStr] at hs
  | list items => simp [PyVal.isStr] at hs
  | int z => simp [PyVal.isStr] at hs
  | none => simp [PyVal.isStr] at hs
  | other tag => simp [PyVal.isStr] at hs

theorem st_print_str_text_order_witness :
    (st_print [PyVal.str "hello", PyVal.int 1] []).length = 2 ∧
    (st_print [PyVal.str "hello", PyVal.int 1] [])[0]? =
      some (Branch.text, StCall.write (PyVal.str "hello")) :=
  ⟨(st_print_str_text_order [PyVal.str "hello", PyVal.int 1] []).1,
    (st_print_str_text_order [PyVal.str "hello", PyVal.int 1] []).2 0
      (PyVal.str "hello") rfl rfl⟩

/-- C6: every positional argument of `st_print` that is a DataFrame is
rendered through the table branch, as an `st.dataframe` call carrying that
exact value, at the same position in the call trace. -/
theorem st_print_dataframe_table (args : List PyVal)
    (kw : List (String × PyVal)) (i : Nat) (v : PyVal)
    (hv : args[i]? = some v) (hd : v.isDataFrame = true) :
    (st_print args kw)[i]? = some (Branch.table, StCall.dataframe v) := by
  have hmap : (st_print args kw)[i]? = args[i]?.map st_print_arg := by
    simp [st_print]
  rw [hmap, hv]
  cases v with
  | dataFrame rows cols => simp [st_print_arg, PyVal.isStr,
      PyVal.isDataFrame]
  | str s => simp [PyVal.isDataFrame] at hd
  | dict entries => simp [PyVal.isDataFrame] at hd
  | list items => simp [PyVal.isDataFrame] at hd
  | int z => simp [PyVal.isDataFrame] at hd
  | none => simp [PyVal.isDataFrame] at hd
  | other tag => simp [PyVal.isDataFrame] at hd

theorem st_print_dataframe_table_witness :
    (st_print [PyVal.dataFrame [[1, 2]] ["x", "y"]] [])[0]? =
      some (Branch.table,
        StCall.dataframe (PyVal.dataFrame [[1, 2]] ["x", "y"])) :=
  st_print_dataframe_table [PyVal.dataFrame [[1, 2]] ["x", "y"]] [] 0
    (PyVal.dataFrame [[1, 2]] ["x", "y"]) rfl rfl

/-- C7: every value that is not a string, not a DataFrame and not a
mapping or list is rendered through the fallback branch, as an `st.write`
call carrying that exact value, and no error is raised: `st_print` is a
total function on all values. -/
theorem st_print_fallback (v : PyVal) (kw : List (String × PyVal))
    (h1 : v.isStr = false) (h2 : v.isDataFrame = false)
    (h3 : v.isDictOrList = false) :
    st_print [v] kw = [(Branch.fallback, StCall.write v)] := by
  simp [st_print, st_print_arg, h1, h2, h3]

theorem st_print_fallback_witness :
    st_print [PyVal.int 42] [] =
      [(Branch.fallback, StCall.write (PyVal.int 42))] :=
  st_print_fallback (PyVal.int 42) [] rfl rfl rfl

/-- C8: the `new_print` wrapper installed by `custom_print` forwards its
positional and keyword arguments unchanged to the redirect function, in a
single call, and returns `None` regardless of what the redirect function
returns; the hook installed at scope entry is exactly that wrapper. -/
theorem new_print_forwards (f : RFunc) (args : List PyVal)
    (kw : List (String × PyVal)) (body : Hook → Run) (h₀ : Hook) :
    new_print f args kw = ([⟨f.id, args, kw⟩], PyVal.none) ∧
    (custom_print f.id body h₀).events.head? =
      some (Hook.newPrint f.id) :=
  ⟨rfl, rfl⟩

/-- C9: calling `st_print` with zero positional arguments performs no render
calls at all, regardless of the keyword arguments supplied. -/
theorem st_print_empty (kw : List (String × PyVal)) :
    st_print [] kw = [] :=
  rfl

/-- C10: on exit from a `custom_print` scope, the process-wide print hook
equals the value captured at entry, even when the block assigns the hook
directly any number of times (`evs` is the block's list of direct
reassignments) and however the block exits: every in-block reassignment is
discarded by the final restoration. -/
theorem custom_print_discards_reassignment (f : Nat) (h₀ : Hook)
    (evs : List Hook) (out : Outcome) :
    applyEvents h₀ (custom_print f (fun _ => ⟨evs, out⟩) h₀).events = h₀ := by
  have : (custom_print f (fun _ => ⟨evs, out⟩) h₀).events =
      (Hook.newPrint f :: evs) ++ [h₀] := by
    simp [custom_print]
  rw [this, applyEvents_concat]
